import Mathlib

/-
Verification of the network configuration subsystem of
middleware/rpi_config_manager.py (class RPiConfigManager).

The Python code is shallowly embedded: every definition below mirrors one
Python function or a contiguous fragment of one.  Python strings are Lean
String values, but all string operations are re-implemented over List Char
so that every definition reduces inside the kernel (the library versions of
splitOn, trim, startsWith do not).  Subprocess calls and file contents are
passed in explicitly: a subprocess result becomes a parameter, a file
becomes a list of its lines, and a Python exception raised across a
function boundary becomes an Except value.  Exact wording of messages built
from exception objects is abstracted where the Python runtime supplies the
text; messages written literally in the source are reproduced literally.
-/

/-! Python string primitives, re-implemented structurally. -/

/-- Core of str.split: scans the character list, cutting at each occurrence
of the separator.  The fuel argument is the input length; each step consumes
at least one character, so the zero-fuel branch is unreachable. -/
def pySplitCore (sep : List Char) : Nat → List Char → List Char → List (List Char)
  | _, acc, [] => [acc.reverse]
  | 0, acc, cs => [acc.reverse ++ cs]
  | fuel + 1, acc, c :: rest =>
    if sep.isPrefixOf (c :: rest) then
      acc.reverse :: pySplitCore sep fuel [] (List.drop (sep.length - 1) rest)
    else
      pySplitCore sep fuel (c :: acc) rest

/-- Python str.split(sep) with a non-empty separator. -/
def pySplit (sep s : String) : List String :=
  (pySplitCore sep.data s.data.length [] s.data).map String.mk

/-- Python membership test pat in s (non-empty pat): the split has more than
one part exactly when the pattern occurs. -/
def pyIn (pat s : String) : Bool :=
  (pySplit pat s).length != 1

/-- Python str.join for a list of parts (used to undo extra splits when
modelling split with a maxsplit argument). -/
def pyJoin (sep : String) (parts : List String) : String :=
  match parts with
  | [] => ""
  | p :: rest => rest.foldl (fun acc q => acc ++ sep ++ q) p

/-- Whitespace strip on a character list (Python str.strip). -/
def pyStripChars (cs : List Char) : List Char :=
  ((cs.dropWhile Char.isWhitespace).reverse.dropWhile Char.isWhitespace).reverse

/-- Python str.strip(). -/
def pyStrip (s : String) : String :=
  String.mk (pyStripChars s.data)

/-- Python str.startswith(pre). -/
def pyStartswith (pre s : String) : Bool :=
  pre.data.isPrefixOf s.data

/-- ASCII lower-casing of one character (Python str.lower, ASCII range). -/
def pyLowerChar (c : Char) : Char :=
  if 'A' ≤ c ∧ c ≤ 'Z' then Char.ofNat (c.toNat + 32) else c

/-- Python str.lower(). -/
def pyLower (s : String) : String :=
  String.mk (s.data.map pyLowerChar)

/-- Value of a non-empty all-digit character list, in base 10. -/
def digitsVal? (cs : List Char) : Option Nat :=
  if cs ≠ [] ∧ cs.all Char.isDigit then
    some (cs.foldl (fun n c => 10 * n + (c.toNat - 48)) 0)
  else none

/-- Python int(s): strips whitespace, accepts an optional sign followed by
decimal digits (digit-group underscores are not modelled). -/
def pyInt? (s : String) : Option Int :=
  match pyStripChars s.data with
  | '-' :: rest => (digitsVal? rest).map (fun n => -(n : Int))
  | '+' :: rest => (digitsVal? rest).map (fun n => (n : Int))
  | cs => (digitsVal? cs).map (fun n => (n : Int))

/-! Netmask / CIDR codec: _netmask_to_cidr, _cidr_to_netmask,
_validate_network_config (rpi_config_manager.py lines 196-247). -/

/-- Number of set bits of an octet value (Python bin(octet).count of the
digit one).  Written for arguments below 256, the only values reached, so
that it stays structural and kernel-reducible. -/
def popcount8 (n : Nat) : Nat :=
  n % 2 + n / 2 % 2 + n / 4 % 2 + n / 8 % 2 + n / 16 % 2 + n / 32 % 2 + n / 64 % 2 + n / 128 % 2

/-- Rendering of a 32-bit value as a dotted quad, as done by the f-string in
_cidr_to_netmask. -/
def ipToStr (n : Nat) : String :=
  toString ((n >>> 24) &&& 255) ++ "." ++ toString ((n >>> 16) &&& 255) ++ "." ++
    toString ((n >>> 8) &&& 255) ++ "." ++ toString (n &&& 255)

/-- Embedding of _netmask_to_cidr: split into four octets, parse each with
int(), reject octets outside 0-255, sum the set bits, reject a total outside
8-30.  Every failure raises ValueError with the one message built in the
outer except clause. -/
def netmask_to_cidr (netmask : String) : Except String Nat :=
  let octets := pySplit "." netmask
  if octets.length ≠ 4 then Except.error ("Invalid netmask: " ++ netmask)
  else
    match octets.mapM pyInt? with
    | none => Except.error ("Invalid netmask: " ++ netmask)
    | some vals =>
      if vals.all (fun v => decide (0 ≤ v ∧ v ≤ 255)) then
        let cidr := (vals.map (fun v => popcount8 v.toNat)).sum
        if 8 ≤ cidr ∧ cidr ≤ 30 then Except.ok cidr
        else Except.error ("Invalid netmask: " ++ netmask)
      else Except.error ("Invalid netmask: " ++ netmask)

/-- Embedding of _cidr_to_netmask.  In Python the shift count 32 - cidr is
negative exactly when cidr exceeds 32; the resulting ValueError is swallowed
by the bare except clause, which returns the 255.255.255.0 fallback. -/
def cidr_to_netmask (cidr : Int) : String :=
  if 32 < cidr then "255.255.255.0"
  else
    let sh := (32 - cidr).toNat
    let mask := (0xffffffff >>> sh) <<< sh
    ipToStr mask

/-- Parser of ipaddress.IPv4Address applied to a string: exactly four dotted
decimal octets, each at most three digits, no leading zero, value at most
255.  Returns the address as a number below 2 to the 32. -/
def parseOctet? (s : String) : Option Nat :=
  let cs := s.data
  if cs ≠ [] ∧ cs.all Char.isDigit ∧ cs.length ≤ 3 ∧ (cs.length = 1 ∨ cs.head? ≠ some '0') then
    let v := cs.foldl (fun n c => 10 * n + (c.toNat - 48)) 0
    if v ≤ 255 then some v else none
  else none

/-- Parser of a dotted-quad IPv4 address string. -/
def parseIPv4 (s : String) : Option Nat :=
  match (pySplit "." s).mapM parseOctet? with
  | some [a, b, c, d] => some (((a * 256 + b) * 256 + c) * 256 + d)
  | _ => none

/-- Membership of address g in the network of address a with prefix length
c (ipaddress builds the network with strict set to false, so membership is
equality of the top c bits, network and broadcast addresses included). -/
def inNetwork (a c g : Nat) : Bool :=
  (g >>> (32 - c)) == (a >>> (32 - c))

/-- Rendering of the IPv4Network value interpolated into the success
message: network address, then the prefix length. -/
def networkStr (a c : Nat) : String :=
  ipToStr ((a >>> (32 - c)) <<< (32 - c)) ++ "/" ++ toString c

/-- Embedding of _validate_network_config.  Parse the address, convert the
netmask, build the network, and when a truthy gateway is supplied require
that it parse and lie in the network.  Any raised exception is converted by
the except clause into a false result; the exact text of exceptions raised
inside the ipaddress library is abstracted, the text of the success message
and of the gateway ValueError follows the source. -/
def validate_network_config (static_ip netmask : String) (gateway : Option String) : Bool × String :=
  match parseIPv4 static_ip with
  | none => (false, "Invalid network config: invalid IPv4 address")
  | some a =>
    match netmask_to_cidr netmask with
    | Except.error e => (false, "Invalid network config: " ++ e)
    | Except.ok c =>
      match gateway with
      | none => (true, "Valid network configuration: " ++ networkStr a c)
      | some g =>
        if g = "" then (true, "Valid network configuration: " ++ networkStr a c)
        else
          match parseIPv4 g with
          | none => (false, "Invalid network config: invalid gateway address")
          | some gv =>
            if inNetwork a c gv then (true, "Valid network configuration: " ++ networkStr a c)
            else (false, "Invalid network config: Gateway " ++ g ++ " not in network " ++ networkStr a c)

/-- A gateway string belongs to the network of a with prefix c when it
parses as an IPv4 address lying in that network. -/
def gwBelongs (a c : Nat) (gw : String) : Prop :=
  ∃ gv, parseIPv4 gw = some gv ∧ inNetwork a c gv = true

/-! NetworkManager reader fragment: the per-line parsing of connection
details inside _read_networkmanager_config (lines 425-445), the one call
site of _cidr_to_netmask. -/

/-- Normalized per-interface record built by the NetworkManager reader. -/
structure IfaceInfo where
  state : String := ""
  connection : String := "none"
  type_ : String := ""
  method : String := "dhcp"
  address : Option String := none
  cidr : Option String := none
  netmask : Option String := none
  gateway : Option String := none
  dns : Option String := none
  current_address : Option String := none
deriving DecidableEq

/-- Python split(sep, 1): head before the first separator and the joined
remainder, or nothing when the separator does not occur. -/
def pySplitOnce (sep s : String) : Option (String × String) :=
  match pySplit sep s with
  | [_] => none
  | k :: rest => some (k, pyJoin sep rest)
  | [] => none

/-- Embedding of one iteration of the connection-details loop of
_read_networkmanager_config: a line key:value updates the method, address,
cidr, netmask, gateway or dns field.  The int() call on the prefix raises
ValueError for a non-numeric prefix; that exception is not caught by the
surrounding try (which catches only CalledProcessError), and is modelled as
the error case.  The netmask is produced by _cidr_to_netmask, fallback
included. -/
def applyConnDetailLine (info : IfaceInfo) (line : String) : Except String IfaceInfo :=
  match pySplitOnce ":" line with
  | none => Except.ok info
  | some (key, value) =>
    if key = "ipv4.method" then
      Except.ok { info with method := if value = "manual" then "static" else "dhcp" }
    else if key = "ipv4.addresses" ∧ value ≠ "" then
      let addr := (pySplit "," value).headD ""
      match pySplit "/" addr with
      | p0 :: p1 :: _ =>
        match pyInt? p1 with
        | none => Except.error ("invalid literal for int with base 10: " ++ p1)
        | some c =>
          Except.ok { info with address := some p0, cidr := some p1,
                                netmask := some (cidr_to_netmask c) }
      | _ => Except.ok info
    else if key = "ipv4.gateway" ∧ value ≠ "" then
      Except.ok { info with gateway := some value }
    else if key = "ipv4.dns" ∧ value ≠ "" then
      Except.ok { info with dns := some (pyJoin " " (pySplit ";" value)) }
    else Except.ok info

/-! Legacy interfaces writer: change_ip_configuration
(rpi_config_manager.py lines 715-773).  The permission test, the timestamped
backup and the final file write are environment effects; the embedding maps
the list of input lines to the list of lines written back, or to the message
of an early return. -/

/-- Truthiness of an optional string parameter (Python falsy values here:
None and the empty string). -/
def truthyOpt : Option String → Bool
  | none => false
  | some s => s ≠ ""

/-- Config-line key patterns tested with startswith inside the target
stanza. -/
def configKeyTokens : List String :=
  ["address ", "netmask ", "gateway ", "dns-nameservers ", "pre-up ", "post-down ", "iface "]

/-- Lines written in place of the target iface line: the new iface line and,
for a static request, the indented address, netmask, gateway and optional
dns-nameservers lines.  A static request with a missing parameter reproduces
the early return of the source. -/
def newIfaceLines (iface method : String) (sip nm gw dns : Option String) :
    Except String (List String) :=
  if method = "static" then
    if truthyOpt sip && truthyOpt nm && truthyOpt gw then
      Except.ok (["iface " ++ iface ++ " inet " ++ method ++ "\n",
                  "\taddress " ++ sip.getD "" ++ "\n",
                  "\tnetmask " ++ nm.getD "" ++ "\n",
                  "\tgateway " ++ gw.getD "" ++ "\n"]
                 ++ (if truthyOpt dns then ["\tdns-nameservers " ++ dns.getD "" ++ "\n"]
                     else []))
    else Except.error "Missing static IP parameters (address, netmask, gateway)."
  else Except.ok ["iface " ++ iface ++ " inet " ++ method ++ "\n"]

/-- Embedding of the line loop of change_ip_configuration, with the
in-target-stanza flag as explicit state. -/
def ciRewrite (iface method : String) (sip nm gw dns : Option String) :
    Bool → List String → Except String (List String)
  | _, [] => Except.ok []
  | inTarget, line :: rest =>
    let s := pyStrip line
    if pyStartswith ("auto " ++ iface) s then
      Except.map (fun ls => line :: ls) (ciRewrite iface method sip nm gw dns inTarget rest)
    else if pyStartswith ("iface " ++ iface) s then
      match newIfaceLines iface method sip nm gw dns with
      | Except.error e => Except.error e
      | Except.ok stanza =>
        Except.map (fun ls => stanza ++ ls) (ciRewrite iface method sip nm gw dns true rest)
    else if inTarget && configKeyTokens.any (fun p => pyStartswith p s) then
      if pyStartswith "iface " s && (s != "iface " ++ iface ++ " inet " ++ method) then
        Except.map (fun ls => line :: ls) (ciRewrite iface method sip nm gw dns false rest)
      else
        ciRewrite iface method sip nm gw dns inTarget rest
    else if !inTarget then
      Except.map (fun ls => line :: ls) (ciRewrite iface method sip nm gw dns inTarget rest)
    else
      ciRewrite iface method sip nm gw dns inTarget rest

/-- Embedding of change_ip_configuration over the lines of the interfaces
file: the loop starts outside the target stanza. -/
def change_ip_configuration (iface method : String) (sip nm gw dns : Option String)
    (lines : List String) : Except String (List String) :=
  ciRewrite iface method sip nm gw dns false lines

/-! WiFi manager: scan_wifi and disconnect_current_wifi
(rpi_config_manager.py lines 816-926).  All nmcli calls go through
run_nmcli_command, which never raises: its outcome is a success flag and an
output or message string, passed in here as parameters. -/

/-- One parsed scan entry of scan_wifi. -/
structure WifiNet where
  ssid : String
  security : String
  signal : String
  frequency : String
  is_current : Bool
  is_saved : Bool
deriving DecidableEq

/-- Python line.split with separator colon and maxsplit 3: at most four
parts, the last one carrying the joined remainder. -/
def splitColonMax3 (line : String) : List String :=
  match pySplit ":" line with
  | p0 :: p1 :: p2 :: p3 :: rest => [p0, p1, p2, pyJoin ":" (p3 :: rest)]
  | parts => parts

/-- Per-line parsing of the scan loop body: a line with at least three
colons yields the stripped ssid, security, signal and frequency fields,
cross-referenced against the current ssid and the saved-profile list. -/
def parseScanLine (cur : Option String) (saved : List String) (line : String) :
    Option WifiNet :=
  match splitColonMax3 line with
  | [p0, p1, p2, p3] =>
    some { ssid := pyStrip p0, security := pyStrip p1, signal := pyStrip p2,
           frequency := pyStrip p3,
           is_current := cur == some (pyStrip p0),
           is_saved := saved.contains (pyStrip p0) }
  | _ => none

/-- Sort key of the final sort: int(signal) when the string is a non-empty
digit string, otherwise zero. -/
def sigKey (s : String) : Nat :=
  if s.data ≠ [] ∧ s.data.all Char.isDigit then
    s.data.foldl (fun n c => 10 * n + (c.toNat - 48)) 0
  else 0

/-- The deduplicating accumulation loop of scan_wifi: entries with an empty
ssid are skipped, and only the first entry of each ssid is kept, tracked by
the seen set. -/
def scanLoop (cur : Option String) (saved : List String) :
    List String → List String → List WifiNet
  | _, [] => []
  | seen, line :: rest =>
    match parseScanLine cur saved line with
    | none => scanLoop cur saved seen rest
    | some n =>
      if n.ssid != "" && !(seen.contains n.ssid) then
        n :: scanLoop cur saved (n.ssid :: seen) rest
      else
        scanLoop cur saved seen rest

/-- Scan entries as parsed per line before deduplication, restricted to
non-empty ssids: the reference list for the first-occurrence-wins
property. -/
def parsedEntries (cur : Option String) (saved : List String) (lines : List String) :
    List WifiNet :=
  (lines.filterMap (parseScanLine cur saved)).filter (fun m => m.ssid != "")

/-- Embedding of scan_wifi over the scan-command outcome: a failed command
yields the empty list; otherwise the parsed, deduplicated entries are
sorted by descending signal key with a stable sort, as list.sort with
reverse set does. -/
def scan_wifi (cur : Option String) (saved : List String) (cmdOk : Bool)
    (lines : List String) : List WifiNet :=
  if !cmdOk then []
  else
    List.insertionSort (fun a b => sigKey b.signal ≤ sigKey a.signal)
      (scanLoop cur saved [] lines)

/-- State of the wlan0 device as seen by nmcli. -/
inductive WifiDevState
  | connected
  | disconnected
deriving DecidableEq

/-- Modelled behavior of the external command nmcli device disconnect wlan0,
as the source expects it: disconnecting a connected device succeeds and
leaves it disconnected; disconnecting an already disconnected device exits
non-zero, and run_nmcli_command turns that into a failure whose message
carries the stderr text containing the words not connected. -/
def nmcliDisconnect : WifiDevState → (Bool × String) × WifiDevState
  | WifiDevState.connected =>
    ((true, "Device wlan0 successfully disconnected."), WifiDevState.disconnected)
  | WifiDevState.disconnected =>
    ((false, "Failed to disconnect current Wi-Fi: Error: device wlan0 not connected."),
      WifiDevState.disconnected)

/-- Embedding of disconnect_current_wifi: a failure whose lower-cased
message does not contain not connected is returned as a failure; every
other outcome is reported as success. -/
def disconnect_current_wifi (st : WifiDevState) : (Bool × String) × WifiDevState :=
  let r := nmcliDisconnect st
  if !r.1.1 && !(pyIn "not connected" (pyLower r.1.2)) then
    ((false, r.1.2), r.2)
  else
    ((true, "Successfully disconnected."), r.2)

/-! Command dispatcher: the topics table, _on_message, the handlers and the
publish helpers (rpi_config_manager.py lines 28-49, 1077-1106, 1108-1405,
1424-1497), plus the NetworkManager static writer
_set_networkmanager_static (lines 249-303) and the gateway auto-derivation
of _handle_set_network_config (lines 1209-1232). -/

/-- The topics dictionary built in the constructor. -/
def topics : String → String
  | "get" => "rpi/config/get"
  | "set" => "rpi/config/set"
  | "response" => "rpi/config/response"
  | "network_get" => "rpi/network/get"
  | "network_set" => "rpi/network/set"
  | "network_response" => "rpi/network/response"
  | "wifi_scan" => "rpi/wifi/scan"
  | "wifi_scan_response" => "rpi/wifi/scan_response"
  | "wifi_connect" => "rpi/wifi/connect"
  | "wifi_connect_response" => "rpi/wifi/connect_response"
  | "wifi_disconnect" => "rpi/wifi/disconnect"
  | "wifi_disconnect_response" => "rpi/wifi/disconnect_response"
  | "wifi_delete" => "rpi/wifi/delete"
  | "wifi_delete_response" => "rpi/wifi/delete_response"
  | "wifi_status" => "rpi/wifi/status"
  | "wifi_status_get" => "rpi/wifi/status/get"
  | "wifi_status_response" => "rpi/wifi/status/response"
  | _ => ""

/-- One outbound publish: the topic it goes to, the status field of the
response object, and the message, count and gateway fields when the handler
sets them.  Timestamp and device id are attached by every publish helper
and carry no information for the claims. -/
structure Pub where
  topic : String
  status : String
  message : Option String := none
  count : Option Nat := none
  gateway : Option String := none
deriving DecidableEq

/-- Fields of a decoded JSON payload that the handlers read.  A missing key
is none; hasConfig stands for the presence of the config key. -/
structure Payload where
  hasConfig : Bool := false
  interface : Option String := none
  method : Option String := none
  static_ip : Option String := none
  netmask : Option String := none
  gateway : Option String := none
  dns : Option String := none
  reboot : Bool := false
  ssid : Option String := none
  password : Option String := none
deriving DecidableEq

/-- Outcomes of the operations a handler performs, one field per call site.
An Except.error value stands for an exception raised by the operation and
caught by the handler boundary; the results of json.loads, of the config
save, of the reader, the writer and the WiFi operations are passed in
explicitly. -/
structure Effects where
  jsonParse : Except String Payload := Except.ok {}
  loadRaise : Option String := none
  saveOk : Bool := true
  thermalChanged : Bool := false
  readResult : Except String (Bool × String) := Except.ok (true, "")
  setResult : Except String (Bool × String) := Except.ok (true, "")
  scanResult : Except String (List WifiNet) := Except.ok []
  connectResult : Except String (Bool × String) := Except.ok (true, "")
  disconnectResult : Except String (Bool × String) := Except.ok (true, "")
  deleteResult : Except String (Bool × String) := Except.ok (true, "")
  statusResult : Except String Bool := Except.ok false

/-- Error publish on the network response topic. -/
def netErrPub (e : String) : Pub :=
  { topic := topics "network_response", status := "error", message := some e }

/-- Default gateway suggested from the static address: first three octets
followed by .1 when the address has four dotted parts, otherwise the fixed
fallback. -/
def default_gateway (sip : String) : String :=
  match pySplit "." sip with
  | [p0, p1, p2, _] => p0 ++ "." ++ p1 ++ "." ++ p2 ++ ".1"
  | _ => "192.168.0.1"

/-- Gateway actually used by the static branch: the payload value unless it
is absent or strips to the empty string, in which case the default is
derived (a present empty string is both falsy and stripping to empty, so
one test covers the Python condition). -/
def derive_gateway (sip : String) (gw : Option String) : String :=
  match gw with
  | none => default_gateway sip
  | some g => if pyStrip g = "" then default_gateway sip else g

/-- Outcomes of the nmcli steps of the NetworkManager static writer: the
resolved connection-profile name, the profile-modify command, and the
down/up reactivation pair. -/
structure NmEnv where
  connName : String := "Wired connection 1"
  modifyOk : Bool := true
  modifyErr : String := ""
  activateOk : Bool := true
deriving DecidableEq

/-- Embedding of _set_networkmanager_static: validate first, then modify
the profile, then try a down/up reactivation; a reactivation failure still
returns success, with the connect-cable message.  The cidr recomputation
after a passed validation cannot fail and is dropped. -/
def set_networkmanager_static (env : NmEnv) (iface ip netmask gateway dns : String) :
    Bool × String :=
  let v := validate_network_config ip netmask (some gateway)
  if !v.1 then (false, v.2)
  else if !env.modifyOk then (false, "nmcli command failed: " ++ env.modifyErr)
  else if env.activateOk then (true, "Static IP " ++ ip ++ " set and activated for " ++ iface)
  else (true, "Static IP " ++ ip ++ " configured for " ++ iface
      ++ ". Connect ethernet cable to activate.")

/-- Embedding of _handle_get_config: load the config and publish it; an
exception in the body becomes an error publish on the same topic. -/
def handle_get_config (eff : Effects) : List Pub :=
  match eff.loadRaise with
  | none => [{ topic := topics "response", status := "success" }]
  | some e => [{ topic := topics "response", status := "error", message := some e }]

/-- Embedding of _handle_set_config: parse the payload, require the config
key, save, and report; any raised exception becomes an error publish. -/
def handle_set_config (eff : Effects) : List Pub :=
  match eff.jsonParse with
  | Except.error e => [{ topic := topics "response", status := "error", message := some e }]
  | Except.ok p =>
    if !p.hasConfig then
      [{ topic := topics "response", status := "error", message := some "Missing config field" }]
    else if eff.saveOk then
      [{ topic := topics "response", status := "success" }]
    else
      [{ topic := topics "response", status := "error",
         message := some "Failed to save config" }]

/-- Embedding of _handle_get_network_config over the reader outcome. -/
def handle_get_network_config (eff : Effects) : List Pub :=
  match eff.readResult with
  | Except.error e =>
    [{ topic := topics "network_response", status := "error", message := some e }]
  | Except.ok (true, _) => [{ topic := topics "network_response", status := "success" }]
  | Except.ok (false, msg) =>
    [{ topic := topics "network_response", status := "error", message := some msg }]

/-- The one writer invocation made by the network-set handler. -/
structure WriterCall where
  iface : String
  kind : String
  ip : String := ""
  netmask : String := ""
  gateway : String := ""
  dns : String := ""
deriving DecidableEq

/-- Publishes and writer invocation of the network-set handler. -/
structure NetSetOut where
  pubs : List Pub
  call : Option WriterCall := none
deriving DecidableEq

/-- Embedding of _handle_set_network_config: decode, default the interface
to eth0, require a truthy method; on the static branch require a truthy
static ip, default netmask and dns, derive the gateway when absent or
blank, and call the writer; on the dhcp branch call the writer directly;
publish one response whose status mirrors the writer outcome.  Exceptions
anywhere become one error publish on the network response topic. -/
def handle_set_network_config (eff : Effects) : NetSetOut :=
  match eff.jsonParse with
  | Except.error e => { pubs := [netErrPub e] }
  | Except.ok p =>
    match p.method with
    | none => { pubs := [netErrPub "Missing method field"] }
    | some m =>
      if m = "" then { pubs := [netErrPub "Missing method field"] }
      else if m = "static" then
        match p.static_ip with
        | none => { pubs := [netErrPub "Missing required static IP parameter: static_ip"] }
        | some sip =>
          if sip = "" then
            { pubs := [netErrPub "Missing required static IP parameter: static_ip"] }
          else
            match eff.setResult with
            | Except.error e => { pubs := [netErrPub e] }
            | Except.ok r =>
              { pubs := [{ topic := topics "network_response",
                           status := if r.1 then "success" else "error",
                           message := some r.2,
                           gateway := some (derive_gateway sip p.gateway) }],
                call := some { iface := p.interface.getD "eth0", kind := "static", ip := sip,
                               netmask := p.netmask.getD "255.255.255.0",
                               gateway := derive_gateway sip p.gateway,
                               dns := p.dns.getD "8.8.8.8 8.8.4.4" } }
      else if m = "dhcp" then
        match eff.setResult with
        | Except.error e => { pubs := [netErrPub e] }
        | Except.ok r =>
          { pubs := [{ topic := topics "network_response",
                       status := if r.1 then "success" else "error",
                       message := some r.2 }],
            call := some { iface := p.interface.getD "eth0", kind := "dhcp" } }
      else { pubs := [netErrPub ("Invalid method: " ++ m ++ ". Must be static or dhcp")] }

/-- Embedding of _handle_wifi_scan over the scan outcome: the length of the
returned list is published as the count, with status success. -/
def handle_wifi_scan (eff : Effects) : List Pub :=
  match eff.scanResult with
  | Except.ok nets =>
    [{ topic := topics "wifi_scan_response", status := "success", count := some nets.length }]
  | Except.error e =>
    [{ topic := topics "wifi_scan_response", status := "error", message := some e }]

/-- Embedding of _handle_wifi_connect. -/
def handle_wifi_connect (eff : Effects) : List Pub :=
  match eff.jsonParse with
  | Except.error e =>
    [{ topic := topics "wifi_connect_response", status := "error", message := some e }]
  | Except.ok p =>
    match p.ssid with
    | none =>
      [{ topic := topics "wifi_connect_response", status := "error",
         message := some "Missing ssid field" }]
    | some ss =>
      if ss = "" then
        [{ topic := topics "wifi_connect_response", status := "error",
           message := some "Missing ssid field" }]
      else
        match eff.connectResult with
        | Except.error e =>
          [{ topic := topics "wifi_connect_response", status := "error", message := some e }]
        | Except.ok r =>
          [{ topic := topics "wifi_connect_response",
             status := if r.1 then "success" else "error",
             message := some (if r.1 then "Connected to " ++ ss else r.2) }]

/-- Embedding of _handle_wifi_disconnect. -/
def handle_wifi_disconnect (eff : Effects) : List Pub :=
  match eff.disconnectResult with
  | Except.error e =>
    [{ topic := topics "wifi_disconnect_response", status := "error", message := some e }]
  | Except.ok r =>
    [{ topic := topics "wifi_disconnect_response",
       status := if r.1 then "success" else "error", message := some r.2 }]

/-- Embedding of _handle_wifi_delete. -/
def handle_wifi_delete (eff : Effects) : List Pub :=
  match eff.jsonParse with
  | Except.error e =>
    [{ topic := topics "wifi_delete_response", status := "error", message := some e }]
  | Except.ok p =>
    match p.ssid with
    | none =>
      [{ topic := topics "wifi_delete_response", status := "error",
         message := some "Missing ssid field" }]
    | some ss =>
      if ss = "" then
        [{ topic := topics "wifi_delete_response", status := "error",
           message := some "Missing ssid field" }]
      else
        match eff.deleteResult with
        | Except.error e =>
          [{ topic := topics "wifi_delete_response", status := "error", message := some e }]
        | Except.ok r =>
          [{ topic := topics "wifi_delete_response",
             status := if r.1 then "success" else "error", message := some r.2 }]

/-- Embedding of _handle_wifi_status_get: a status dict carrying an error
key is published with the distinct partial_error status. -/
def handle_wifi_status_get (eff : Effects) : List Pub :=
  match eff.statusResult with
  | Except.error e =>
    [{ topic := topics "wifi_status_response", status := "error", message := some e }]
  | Except.ok hasErr =>
    [{ topic := topics "wifi_status_response",
       status := if hasErr then "partial_error" else "success" }]

/-- The nine subscribed request topics. -/
inductive ReqTopic
  | get
  | set
  | network_get
  | network_set
  | wifi_scan
  | wifi_connect
  | wifi_disconnect
  | wifi_delete
  | wifi_status_get
deriving DecidableEq

/-- Response topic corresponding to each request topic, the table of the
external-interface section of the specification. -/
def respTopicStr : ReqTopic → String
  | ReqTopic.get => topics "response"
  | ReqTopic.set => topics "response"
  | ReqTopic.network_get => topics "network_response"
  | ReqTopic.network_set => topics "network_response"
  | ReqTopic.wifi_scan => topics "wifi_scan_response"
  | ReqTopic.wifi_connect => topics "wifi_connect_response"
  | ReqTopic.wifi_disconnect => topics "wifi_disconnect_response"
  | ReqTopic.wifi_delete => topics "wifi_delete_response"
  | ReqTopic.wifi_status_get => topics "wifi_status_response"

/-- Embedding of _on_message: the payload bytes are decoded before the
topic is dispatched, so a decode failure is caught by the outer except
clause, which publishes its error through _publish_response on the config
response topic whatever the request topic was; a decodable payload reaches
the matching handler. -/
def on_message (t : ReqTopic) (decoded : Except String String) (eff : Effects) : List Pub :=
  match decoded with
  | Except.error e => [{ topic := topics "response", status := "error", message := some e }]
  | Except.ok _ =>
    match t with
    | ReqTopic.get => handle_get_config eff
    | ReqTopic.set => handle_set_config eff
    | ReqTopic.network_get => handle_get_network_config eff
    | ReqTopic.network_set => (handle_set_network_config eff).pubs
    | ReqTopic.wifi_scan => handle_wifi_scan eff
    | ReqTopic.wifi_connect => handle_wifi_connect eff
    | ReqTopic.wifi_disconnect => handle_wifi_disconnect eff
    | ReqTopic.wifi_delete => handle_wifi_delete eff
    | ReqTopic.wifi_status_get => handle_wifi_status_get eff

/-! Theorems for claims C2, C3, C8. -/

/-- C2, counterexample.  The netmask 255.0.255.0 has four octets in 0-255
and 16 set bits, so it satisfies the stated precondition, yet the
round trip returns 255.255.0.0, not the original mask:
_netmask_to_cidr only counts set bits and never checks contiguity. -/
theorem c2_noncontiguous_roundtrip_fails :
    netmask_to_cidr "255.0.255.0" = Except.ok 16
    ∧ cidr_to_netmask (16 : Int) = "255.255.0.0"
    ∧ "255.255.0.0" ≠ "255.0.255.0" := by
  refine ⟨rfl, rfl, by decide⟩

/-- C2, amended.  The round trip _cidr_to_netmask after _netmask_to_cidr is
the identity on contiguous netmasks, i.e. on the masks of the form
_cidr_to_netmask k for a prefix length k in 8-30. -/
theorem c2_contiguous_roundtrip (m : String) (k : Nat) (h1 : 8 ≤ k) (h2 : k ≤ 30)
    (hm : m = cidr_to_netmask (k : Int)) :
    (netmask_to_cidr m).map (fun c => cidr_to_netmask (c : Int)) = Except.ok m := by
  subst hm
  interval_cases k <;> rfl

/-- Witness for c2_contiguous_roundtrip at prefix length 24. -/
theorem c2_contiguous_roundtrip_witness :
    (netmask_to_cidr (cidr_to_netmask (24 : Int))).map (fun c => cidr_to_netmask (c : Int))
      = Except.ok (cidr_to_netmask (24 : Int)) :=
  c2_contiguous_roundtrip (cidr_to_netmask (24 : Int)) 24 (by decide) (by decide) rfl

/-- C3, confirmed.  For a parseable address and a codec-accepted netmask:
with a supplied (non-empty) gateway, _validate_network_config succeeds
exactly when the gateway belongs to the network of ip with the prefix
derived from the netmask, and on success returns the human-readable
description of the accepted network; with no gateway supplied it succeeds
with the same description. -/
theorem c3_validate_network_config_gateway (ip nm gw : String) (a c : Nat)
    (h1 : parseIPv4 ip = some a) (h2 : netmask_to_cidr nm = Except.ok c) (hne : gw ≠ "") :
    ((validate_network_config ip nm (some gw)).1 = true ↔ gwBelongs a c gw)
    ∧ (gwBelongs a c gw →
        validate_network_config ip nm (some gw)
          = (true, "Valid network configuration: " ++ networkStr a c))
    ∧ validate_network_config ip nm none
        = (true, "Valid network configuration: " ++ networkStr a c) := by
  have hnone : validate_network_config ip nm none
      = (true, "Valid network configuration: " ++ networkStr a c) := by
    unfold validate_network_config
    rw [h1, h2]
  have hsome : ∀ gv, parseIPv4 gw = some gv →
      validate_network_config ip nm (some gw)
        = if inNetwork a c gv then (true, "Valid network configuration: " ++ networkStr a c)
          else (false, "Invalid network config: Gateway " ++ gw ++ " not in network "
                  ++ networkStr a c) := by
    intro gv hp
    unfold validate_network_config
    rw [h1, h2]
    dsimp only
    rw [if_neg hne, hp]
  have hnoparse : parseIPv4 gw = none →
      validate_network_config ip nm (some gw)
        = (false, "Invalid network config: invalid gateway address") := by
    intro hp
    unfold validate_network_config
    rw [h1, h2]
    dsimp only
    rw [if_neg hne, hp]
  refine ⟨?_, ?_, hnone⟩
  · cases hp : parseIPv4 gw with
    | none =>
      rw [hnoparse hp]
      constructor
      · intro h; exact absurd h Bool.false_ne_true
      · rintro ⟨gv, hgv, -⟩; rw [hp] at hgv; cases hgv
    | some gv =>
      rw [hsome gv hp]
      cases hin : inNetwork a c gv with
      | true =>
        exact ⟨fun _ => ⟨gv, hp, hin⟩, fun _ => rfl⟩
      | false =>
        constructor
        · intro h; exact absurd h Bool.false_ne_true
        · rintro ⟨gv2, hgv2, hin2⟩
          rw [hp] at hgv2
          injection hgv2 with he
          rw [← he, hin] at hin2
          exact absurd hin2 Bool.false_ne_true
  · rintro ⟨gv, hgv, hin⟩
    rw [hsome gv hgv, if_pos hin]

/-- Witness for c3_validate_network_config_gateway: 192.168.1.1 belongs to
192.168.1.50/24, so validation succeeds with the network description. -/
theorem c3_validate_network_config_gateway_witness :
    validate_network_config "192.168.1.50" "255.255.255.0" (some "192.168.1.1")
      = (true, "Valid network configuration: " ++ networkStr 3232235826 24) :=
  (c3_validate_network_config_gateway "192.168.1.50" "255.255.255.0" "192.168.1.1"
      3232235826 24 rfl rfl (by decide)).2.1
    ⟨3232235777, rfl, rfl⟩

/-- C8, counterexample.  The 255.255.255.0 fallback of _cidr_to_netmask is
reachable silently inside the NetworkManager config reader, the only call
site of _cidr_to_netmask in the program: a connection reporting the address
10.0.0.1/33 makes the reader store the fallback netmask without any error,
while the claim says the fallback never fires there.  (The
default-gateway-suggestion path never calls _cidr_to_netmask at all.) -/
theorem c8_reader_fallback_silent :
    applyConnDetailLine {} "ipv4.addresses:10.0.0.1/33"
      = Except.ok { address := some "10.0.0.1", cidr := some "33",
                    netmask := some "255.255.255.0" }
    ∧ cidr_to_netmask (33 : Int) = "255.255.255.0" :=
  ⟨rfl, rfl⟩

/-- C8, amended.  For every prefix length 0-32, _cidr_to_netmask succeeds
and returns the dotted quad of the mask with that many leading one bits;
the 255.255.255.0 fallback fires exactly for prefixes above 32, and its one
call site is the NetworkManager config reader, where an out-of-range prefix
such as /33 silently produces the fallback. -/
theorem c8_cidr_to_netmask_correct (c : Nat) (h : c ≤ 32) :
    cidr_to_netmask (c : Int) = ipToStr ((2 ^ c - 1) * 2 ^ (32 - c))
    ∧ applyConnDetailLine {} "ipv4.addresses:10.0.0.1/33"
        = Except.ok { address := some "10.0.0.1", cidr := some "33",
                      netmask := some "255.255.255.0" } := by
  refine ⟨?_, rfl⟩
  interval_cases c <;> rfl

/-- Witness for c8_cidr_to_netmask_correct at prefix length 24. -/
theorem c8_cidr_to_netmask_correct_witness :
    cidr_to_netmask (24 : Int) = ipToStr ((2 ^ 24 - 1) * 2 ^ (32 - 24)) :=
  (c8_cidr_to_netmask_correct 24 (by decide)).1

/-- Outside the target stanza, a line that does not open the target iface
stanza is re-emitted unchanged and the state is kept. -/
theorem ciRewrite_outside_step (iface method : String) (sip nm gw dns : Option String)
    (line : String) (rest : List String)
    (h : pyStartswith ("iface " ++ iface) (pyStrip line) = false) :
    ciRewrite iface method sip nm gw dns false (line :: rest)
      = Except.map (fun ls => line :: ls) (ciRewrite iface method sip nm gw dns false rest) := by
  simp only [ciRewrite]
  cases ha : pyStartswith ("auto " ++ iface) (pyStrip line) with
  | true => simp [ha]
  | false => simp [ha, h]

/-- Inside the target stanza, a line that is neither an iface line nor an
auto line of the target is dropped and the state is kept. -/
theorem ciRewrite_inside_drop (iface method : String) (sip nm gw dns : Option String)
    (line : String) (rest : List String)
    (h1 : pyStartswith ("auto " ++ iface) (pyStrip line) = false)
    (h2 : pyStartswith ("iface " ++ iface) (pyStrip line) = false)
    (h3 : pyStartswith "iface " (pyStrip line) = false) :
    ciRewrite iface method sip nm gw dns true (line :: rest)
      = ciRewrite iface method sip nm gw dns true rest := by
  simp only [ciRewrite]
  cases hany : configKeyTokens.any (fun p => pyStartswith p (pyStrip line)) <;>
    simp [h1, h2, h3, hany]

/-- A line opening the target iface stanza is replaced by the new stanza and
the state becomes in-target (from either state). -/
theorem ciRewrite_target_step (iface method : String) (sip nm gw dns : Option String)
    (b : Bool) (line : String) (rest : List String) (stanza : List String)
    (h1 : pyStartswith ("auto " ++ iface) (pyStrip line) = false)
    (h2 : pyStartswith ("iface " ++ iface) (pyStrip line) = true)
    (hnew : newIfaceLines iface method sip nm gw dns = Except.ok stanza) :
    ciRewrite iface method sip nm gw dns b (line :: rest)
      = Except.map (fun ls => stanza ++ ls) (ciRewrite iface method sip nm gw dns true rest) := by
  simp only [ciRewrite]
  simp [h1, h2, hnew]

/-- Inside the target stanza, an iface line of another interface closes the
stanza: the line is re-emitted and the state leaves the target. -/
theorem ciRewrite_reset_step (iface method : String) (sip nm gw dns : Option String)
    (line : String) (rest : List String)
    (h1 : pyStartswith ("auto " ++ iface) (pyStrip line) = false)
    (h2 : pyStartswith ("iface " ++ iface) (pyStrip line) = false)
    (h3 : pyStartswith "iface " (pyStrip line) = true)
    (h4 : (pyStrip line != "iface " ++ iface ++ " inet " ++ method) = true) :
    ciRewrite iface method sip nm gw dns true (line :: rest)
      = Except.map (fun ls => line :: ls) (ciRewrite iface method sip nm gw dns false rest) := by
  simp only [ciRewrite]
  simp [h1, h2, h3, h4, configKeyTokens]

/-- Lines processed outside the target stanza and free of target iface lines
are re-emitted unchanged, in order, before whatever the rest produces. -/
theorem ciRewrite_outside_append (iface method : String) (sip nm gw dns : Option String)
    (pre rest : List String)
    (hpre : ∀ l ∈ pre, pyStartswith ("iface " ++ iface) (pyStrip l) = false) :
    ciRewrite iface method sip nm gw dns false (pre ++ rest)
      = Except.map (fun ls => pre ++ ls) (ciRewrite iface method sip nm gw dns false rest) := by
  induction pre with
  | nil =>
    cases h : ciRewrite iface method sip nm gw dns false rest <;> simp [h, Except.map]
  | cons l ls ih =>
    rw [List.cons_append,
        ciRewrite_outside_step iface method sip nm gw dns l (ls ++ rest) (hpre l (by simp)),
        ih (fun x hx => hpre x (by simp [hx]))]
    cases h : ciRewrite iface method sip nm gw dns false rest <;> simp [h, Except.map]

/-- Lines processed inside the target stanza that are neither iface lines
nor target auto lines are all dropped. -/
theorem ciRewrite_inside_append (iface method : String) (sip nm gw dns : Option String)
    (body rest : List String)
    (hbody : ∀ l ∈ body, pyStartswith ("auto " ++ iface) (pyStrip l) = false
      ∧ pyStartswith ("iface " ++ iface) (pyStrip l) = false
      ∧ pyStartswith "iface " (pyStrip l) = false) :
    ciRewrite iface method sip nm gw dns true (body ++ rest)
      = ciRewrite iface method sip nm gw dns true rest := by
  induction body with
  | nil => rfl
  | cons l ls ih =>
    obtain ⟨h1, h2, h3⟩ := hbody l (by simp)
    rw [List.cons_append,
        ciRewrite_inside_drop iface method sip nm gw dns l (ls ++ rest) h1 h2 h3,
        ih (fun x hx => hbody x (by simp [hx]))]

/-- A tail free of target iface lines, processed outside the target stanza,
is reproduced verbatim. -/
theorem ciRewrite_outside_id (iface method : String) (sip nm gw dns : Option String)
    (tail : List String)
    (htail : ∀ l ∈ tail, pyStartswith ("iface " ++ iface) (pyStrip l) = false) :
    ciRewrite iface method sip nm gw dns false tail = Except.ok tail := by
  have h := ciRewrite_outside_append iface method sip nm gw dns tail [] htail
  rw [List.append_nil] at h
  rw [h]
  simp [ciRewrite, Except.map]

/-- C5, counterexample.  The line auto wlan0 lies outside the target eth0
stanza (it belongs to wlan0), is none of the six listed config keys, and is
not an iface line, yet the rewriter drops it: while the in-target flag is
set, every line that matches no recognized pattern is silently removed, not
only the listed config lines. -/
theorem c5_outside_line_dropped :
    change_ip_configuration "eth0" "dhcp" none none none none
        ["iface eth0 inet dhcp\n", "auto wlan0\n", "iface wlan0 inet dhcp\n"]
      = Except.ok ["iface eth0 inet dhcp\n", "iface wlan0 inet dhcp\n"]
    ∧ "auto wlan0\n" ∈ ["iface eth0 inet dhcp\n", "auto wlan0\n", "iface wlan0 inet dhcp\n"]
    ∧ "auto wlan0\n" ∉ ["iface eth0 inet dhcp\n", "iface wlan0 inet dhcp\n"] := by
  refine ⟨rfl, by decide, by decide⟩

/-- C5, amended.  Lines before the target iface line and from the next
iface line onward are re-emitted unchanged and in order, and the target
iface line is replaced by the freshly written stanza; but between the target
iface line and the next iface line every line is removed, not only the six
listed config keys: comments, blank lines and auto lines of other
interfaces are dropped as well (an auto line of the target itself would be
kept).  The hypotheses state that the surrounding lines do not open the
target stanza (interface matching in the source is by startswith, so names
extending the target name would also be captured). -/
theorem c5_stanza_rewrite_frame (iface method : String) (sip nm gw dns : Option String)
    (pre body tail : List String) (ifl nxt : String) (stanza : List String)
    (hpre : ∀ l ∈ pre, pyStartswith ("iface " ++ iface) (pyStrip l) = false)
    (hifl1 : pyStartswith ("iface " ++ iface) (pyStrip ifl) = true)
    (hifl2 : pyStartswith ("auto " ++ iface) (pyStrip ifl) = false)
    (hnew : newIfaceLines iface method sip nm gw dns = Except.ok stanza)
    (hbody : ∀ l ∈ body, pyStartswith ("auto " ++ iface) (pyStrip l) = false
      ∧ pyStartswith ("iface " ++ iface) (pyStrip l) = false
      ∧ pyStartswith "iface " (pyStrip l) = false)
    (hnxt1 : pyStartswith "iface " (pyStrip nxt) = true)
    (hnxt2 : pyStartswith ("iface " ++ iface) (pyStrip nxt) = false)
    (hnxt3 : pyStartswith ("auto " ++ iface) (pyStrip nxt) = false)
    (hnxt4 : (pyStrip nxt != "iface " ++ iface ++ " inet " ++ method) = true)
    (htail : ∀ l ∈ tail, pyStartswith ("iface " ++ iface) (pyStrip l) = false) :
    change_ip_configuration iface method sip nm gw dns (pre ++ ifl :: (body ++ nxt :: tail))
      = Except.ok (pre ++ (stanza ++ nxt :: tail)) := by
  unfold change_ip_configuration
  rw [ciRewrite_outside_append iface method sip nm gw dns pre (ifl :: (body ++ nxt :: tail)) hpre,
      ciRewrite_target_step iface method sip nm gw dns false ifl (body ++ nxt :: tail) stanza
        hifl2 hifl1 hnew,
      ciRewrite_inside_append iface method sip nm gw dns body (nxt :: tail) hbody,
      ciRewrite_reset_step iface method sip nm gw dns nxt tail hnxt3 hnxt2 hnxt1 hnxt4,
      ciRewrite_outside_id iface method sip nm gw dns tail htail]
  rfl

/-- Witness for c5_stanza_rewrite_frame: a static rewrite of a two-stanza
file keeps the leading comment, the auto line and the whole wlan0 part. -/
theorem c5_stanza_rewrite_frame_witness :
    change_ip_configuration "eth0" "static" (some "192.168.1.50") (some "255.255.255.0")
        (some "192.168.1.1") (some "8.8.8.8 8.8.4.4")
        (["# interfaces file\n", "auto eth0\n"]
          ++ "iface eth0 inet dhcp\n"
            :: (["\taddress 10.0.0.5\n", "\tnetmask 255.255.255.0\n"]
                ++ "iface wlan0 inet dhcp\n" :: ["\twireless-power off\n"]))
      = Except.ok (["# interfaces file\n", "auto eth0\n"]
          ++ (["iface eth0 inet static\n", "\taddress 192.168.1.50\n",
               "\tnetmask 255.255.255.0\n", "\tgateway 192.168.1.1\n",
               "\tdns-nameservers 8.8.8.8 8.8.4.4\n"]
              ++ "iface wlan0 inet dhcp\n" :: ["\twireless-power off\n"])) :=
  c5_stanza_rewrite_frame "eth0" "static" (some "192.168.1.50") (some "255.255.255.0")
    (some "192.168.1.1") (some "8.8.8.8 8.8.4.4")
    ["# interfaces file\n", "auto eth0\n"]
    ["\taddress 10.0.0.5\n", "\tnetmask 255.255.255.0\n"]
    ["\twireless-power off\n"]
    "iface eth0 inet dhcp\n" "iface wlan0 inet dhcp\n"
    ["iface eth0 inet static\n", "\taddress 192.168.1.50\n", "\tnetmask 255.255.255.0\n",
     "\tgateway 192.168.1.1\n", "\tdns-nameservers 8.8.8.8 8.8.4.4\n"]
    (by decide) (by decide) (by decide) rfl (by decide)
    (by decide) (by decide) (by decide) (by decide) (by decide)

/-- Every entry produced by the scan loop has an ssid outside the seen set
and equals the first parsed entry carrying its ssid. -/
theorem scanLoop_firstwins (cur : Option String) (saved : List String) :
    ∀ (lines : List String) (seen : List String) (n : WifiNet),
      n ∈ scanLoop cur saved seen lines →
      seen.contains n.ssid = false
      ∧ (parsedEntries cur saved lines).find? (fun m => m.ssid == n.ssid) = some n := by
  intro lines
  induction lines with
  | nil => intro seen n h; cases h
  | cons line rest ih =>
    intro seen n hn
    unfold parsedEntries
    rw [List.filterMap_cons]
    simp only [scanLoop] at hn
    cases hp : parseScanLine cur saved line with
    | none =>
      rw [hp] at hn
      dsimp only at hn
      exact ih seen n hn
    | some m =>
      rw [hp] at hn
      dsimp only at hn ⊢
      cases hg : (m.ssid != "" && !(seen.contains m.ssid)) with
      | false =>
        rw [hg, if_neg Bool.false_ne_true] at hn
        obtain ⟨hseen, hfind⟩ := ih seen n hn
        refine ⟨hseen, ?_⟩
        cases he : (m.ssid != "") with
        | false =>
          rw [List.filter_cons, he]
          exact hfind
        | true =>
          have hcontains : seen.contains m.ssid = true := by
            rcases Bool.and_eq_false_iff.mp hg with h | h
            · rw [he] at h; cases h
            · cases hc : seen.contains m.ssid with
              | true => rfl
              | false => rw [hc] at h; cases h
          have hne : (m.ssid == n.ssid) = false := by
            cases hq : (m.ssid == n.ssid) with
            | false => rfl
            | true =>
              rw [beq_iff_eq.mp hq, hseen] at hcontains
              cases hcontains
          rw [List.filter_cons, he]
          simp only [if_true, List.find?]
          rw [hne]
          exact hfind
      | true =>
        rw [hg, if_pos rfl] at hn
        have hand := hg
        rw [Bool.and_eq_true] at hand
        have he : (m.ssid != "") = true := hand.1
        have hns : seen.contains m.ssid = false := by
          have h2 := hand.2
          cases hc : seen.contains m.ssid with
          | false => rfl
          | true => rw [hc] at h2; cases h2
        rcases List.mem_cons.mp hn with rfl | hn2
        · refine ⟨hns, ?_⟩
          rw [List.filter_cons, he]
          simp only [if_true, List.find?]
          rw [beq_self_eq_true]
        · obtain ⟨hseen3, hfind3⟩ := ih (m.ssid :: seen) n hn2
          rw [List.contains_cons] at hseen3
          have h1 : (n.ssid == m.ssid) = false := by
            cases hq : (n.ssid == m.ssid) with
            | false => rfl
            | true => rw [hq] at hseen3; cases hseen3
          have h2 : seen.contains n.ssid = false := by
            cases hq : seen.contains n.ssid with
            | false => rfl
            | true => rw [hq, Bool.or_true] at hseen3; cases hseen3
          refine ⟨h2, ?_⟩
          rw [List.filter_cons, he]
          simp only [if_true, List.find?]
          have h1s : (m.ssid == n.ssid) = false := by
            cases hq : (m.ssid == n.ssid) with
            | false => rfl
            | true =>
              rw [beq_iff_eq.mp hq, beq_self_eq_true] at h1
              cases h1
          rw [h1s]
          exact hfind3

/-- The scan loop never emits two entries with the same ssid. -/
theorem scanLoop_nodup (cur : Option String) (saved : List String) :
    ∀ (lines seen : List String),
      (scanLoop cur saved seen lines).Pairwise (fun a b => a.ssid ≠ b.ssid) := by
  intro lines
  induction lines with
  | nil => intro seen; exact List.Pairwise.nil
  | cons line rest ih =>
    intro seen
    simp only [scanLoop]
    cases hp : parseScanLine cur saved line with
    | none => exact ih seen
    | some m =>
      dsimp only
      cases hg : (m.ssid != "" && !(seen.contains m.ssid)) with
      | false => rw [if_neg Bool.false_ne_true]; exact ih seen
      | true =>
        rw [if_pos rfl]
        refine List.Pairwise.cons ?_ (ih (m.ssid :: seen))
        intro b hb
        obtain ⟨hseen, -⟩ := scanLoop_firstwins cur saved rest (m.ssid :: seen) b hb
        rw [List.contains_cons] at hseen
        have hbne : (b.ssid == m.ssid) = false := by
          cases hq : (b.ssid == m.ssid) with
          | false => rfl
          | true => rw [hq] at hseen; cases hseen
        have hb2 : b.ssid ≠ m.ssid := by
          intro he
          rw [he, beq_self_eq_true] at hbne
          cases hbne
        exact fun he2 => hb2 he2.symm

/-- C7, confirmed.  For every scan feed: the result has at most one entry
per ssid; every entry has a non-empty ssid and equals the first parsed
occurrence of that ssid in the feed (first occurrence wins); and the result
is sorted by descending signal key, non-numeric signal strings counting as
zero. -/
theorem c7_scan_dedup_sorted (cur : Option String) (saved : List String) (cmdOk : Bool)
    (lines : List String) :
    (scan_wifi cur saved cmdOk lines).Pairwise (fun a b => a.ssid ≠ b.ssid)
    ∧ (∀ n ∈ scan_wifi cur saved cmdOk lines, n.ssid ≠ ""
        ∧ (parsedEntries cur saved lines).find? (fun m => m.ssid == n.ssid) = some n)
    ∧ (scan_wifi cur saved cmdOk lines).Pairwise
        (fun a b => sigKey b.signal ≤ sigKey a.signal) := by
  unfold scan_wifi
  cases cmdOk with
  | false =>
    exact ⟨List.Pairwise.nil, fun n hn => absurd hn (List.not_mem_nil n), List.Pairwise.nil⟩
  | true =>
    have hperm := List.perm_insertionSort
      (fun a b : WifiNet => sigKey b.signal ≤ sigKey a.signal) (scanLoop cur saved [] lines)
    refine ⟨?_, ?_, ?_⟩
    · exact (List.Perm.pairwise_iff (fun h => Ne.symm h) hperm).mpr
        (scanLoop_nodup cur saved lines [])
    · intro n hn
      have hn0 : n ∈ scanLoop cur saved [] lines := hperm.mem_iff.mp hn
      obtain ⟨-, hfind⟩ := scanLoop_firstwins cur saved lines [] n hn0
      refine ⟨?_, hfind⟩
      have hmem := List.mem_of_find?_eq_some hfind
      unfold parsedEntries at hmem
      have hbne := List.of_mem_filter hmem
      exact bne_iff_ne.mp hbne
    · haveI : IsTotal WifiNet (fun a b => sigKey b.signal ≤ sigKey a.signal) :=
        ⟨fun a b => Nat.le_total (sigKey b.signal) (sigKey a.signal)⟩
      haveI : IsTrans WifiNet (fun a b => sigKey b.signal ≤ sigKey a.signal) :=
        ⟨fun _ _ _ h1 h2 => le_trans h2 h1⟩
      exact List.sorted_insertionSort _ _

/-- C9, confirmed.  disconnect_current_wifi reports success from every
device state, and calling it twice in a row reports success both times; in
particular the call on an already disconnected device reports success. -/
theorem c9_disconnect_idempotent (st : WifiDevState) :
    (disconnect_current_wifi st).1.1 = true
    ∧ (disconnect_current_wifi (disconnect_current_wifi st).2).1.1 = true
    ∧ (disconnect_current_wifi WifiDevState.disconnected).1.1 = true := by
  cases st <;> exact ⟨rfl, rfl, rfl⟩

/-- A singleton publish list has length one and a fixed topic. -/
theorem singleton_resp {q : Pub} {l : List Pub} {T : String} (hq : l = [q])
    (ht : q.topic = T) : l.length = 1 ∧ ∀ p ∈ l, p.topic = T := by
  subst hq
  refine ⟨rfl, ?_⟩
  intro p hp
  rw [List.mem_singleton] at hp
  subst hp
  exact ht

/-- The get-config handler publishes exactly one message, on the config
response topic. -/
theorem handle_get_config_resp (eff : Effects) :
    ∃ q, handle_get_config eff = [q] ∧ q.topic = topics "response" := by
  unfold handle_get_config
  repeat' split
  all_goals exact ⟨_, rfl, rfl⟩

/-- The set-config handler publishes exactly one message, on the config
response topic. -/
theorem handle_set_config_resp (eff : Effects) :
    ∃ q, handle_set_config eff = [q] ∧ q.topic = topics "response" := by
  unfold handle_set_config
  repeat' split
  all_goals exact ⟨_, rfl, rfl⟩

/-- The network-get handler publishes exactly one message, on the network
response topic. -/
theorem handle_get_network_config_resp (eff : Effects) :
    ∃ q, handle_get_network_config eff = [q] ∧ q.topic = topics "network_response" := by
  unfold handle_get_network_config
  repeat' split
  all_goals exact ⟨_, rfl, rfl⟩

/-- The network-set handler publishes exactly one message, on the network
response topic. -/
theorem handle_set_network_config_resp (eff : Effects) :
    ∃ q, (handle_set_network_config eff).pubs = [q] ∧ q.topic = topics "network_response" := by
  unfold handle_set_network_config
  repeat' split
  all_goals exact ⟨_, rfl, rfl⟩

/-- The wifi-scan handler publishes exactly one message, on the scan
response topic. -/
theorem handle_wifi_scan_resp (eff : Effects) :
    ∃ q, handle_wifi_scan eff = [q] ∧ q.topic = topics "wifi_scan_response" := by
  unfold handle_wifi_scan
  repeat' split
  all_goals exact ⟨_, rfl, rfl⟩

/-- The wifi-connect handler publishes exactly one message, on the connect
response topic. -/
theorem handle_wifi_connect_resp (eff : Effects) :
    ∃ q, handle_wifi_connect eff = [q] ∧ q.topic = topics "wifi_connect_response" := by
  unfold handle_wifi_connect
  repeat' split
  all_goals exact ⟨_, rfl, rfl⟩

/-- The wifi-disconnect handler publishes exactly one message, on the
disconnect response topic. -/
theorem handle_wifi_disconnect_resp (eff : Effects) :
    ∃ q, handle_wifi_disconnect eff = [q] ∧ q.topic = topics "wifi_disconnect_response" := by
  unfold handle_wifi_disconnect
  repeat' split
  all_goals exact ⟨_, rfl, rfl⟩

/-- The wifi-delete handler publishes exactly one message, on the delete
response topic. -/
theorem handle_wifi_delete_resp (eff : Effects) :
    ∃ q, handle_wifi_delete eff = [q] ∧ q.topic = topics "wifi_delete_response" := by
  unfold handle_wifi_delete
  repeat' split
  all_goals exact ⟨_, rfl, rfl⟩

/-- The wifi-status handler publishes exactly one message, on the status
response topic. -/
theorem handle_wifi_status_get_resp (eff : Effects) :
    ∃ q, handle_wifi_status_get eff = [q] ∧ q.topic = topics "wifi_status_response" := by
  unfold handle_wifi_status_get
  repeat' split
  all_goals exact ⟨_, rfl, rfl⟩

/-- C1, counterexample.  A message on the wifi-scan request topic whose
payload fails UTF-8 decoding produces its one error response on the config
response topic, not on the scan response topic the table assigns to that
request: the payload is decoded before the topic is dispatched, so the
outer except clause uses the generic config publish helper. -/
theorem c1_decode_failure_wrong_topic :
    on_message ReqTopic.wifi_scan (Except.error "utf-8 decode error") {}
      = [{ topic := "rpi/config/response", status := "error",
           message := some "utf-8 decode error" }]
    ∧ respTopicStr ReqTopic.wifi_scan = "rpi/wifi/scan_response"
    ∧ "rpi/config/response" ≠ "rpi/wifi/scan_response" :=
  ⟨rfl, rfl, by decide⟩

/-- C1, amended.  When the payload decodes, the handler of each subscribed
request topic publishes exactly one response, on the response topic
corresponding to that request topic, whatever the outcomes of the
operations it performs (exceptions included); when payload decoding itself
fails, exactly one error response is still published, but on the config
response topic regardless of the request topic; in either case the
dispatcher is total, so no exception terminates the dispatch loop. -/
theorem c1_dispatch_single_response (t : ReqTopic) (s e : String) (eff : Effects) :
    ((on_message t (Except.ok s) eff).length = 1
      ∧ ∀ p ∈ on_message t (Except.ok s) eff, p.topic = respTopicStr t)
    ∧ on_message t (Except.error e) eff
        = [{ topic := topics "response", status := "error", message := some e }] := by
  refine ⟨?_, rfl⟩
  cases t with
  | get =>
    obtain ⟨q, hq, ht⟩ := handle_get_config_resp eff
    exact singleton_resp hq ht
  | set =>
    obtain ⟨q, hq, ht⟩ := handle_set_config_resp eff
    exact singleton_resp hq ht
  | network_get =>
    obtain ⟨q, hq, ht⟩ := handle_get_network_config_resp eff
    exact singleton_resp hq ht
  | network_set =>
    obtain ⟨q, hq, ht⟩ := handle_set_network_config_resp eff
    exact singleton_resp hq ht
  | wifi_scan =>
    obtain ⟨q, hq, ht⟩ := handle_wifi_scan_resp eff
    exact singleton_resp hq ht
  | wifi_connect =>
    obtain ⟨q, hq, ht⟩ := handle_wifi_connect_resp eff
    exact singleton_resp hq ht
  | wifi_disconnect =>
    obtain ⟨q, hq, ht⟩ := handle_wifi_disconnect_resp eff
    exact singleton_resp hq ht
  | wifi_delete =>
    obtain ⟨q, hq, ht⟩ := handle_wifi_delete_resp eff
    exact singleton_resp hq ht
  | wifi_status_get =>
    obtain ⟨q, hq, ht⟩ := handle_wifi_status_get_resp eff
    exact singleton_resp hq ht

/-- Evaluation of the network-set handler on the static branch with a
truthy method and static ip and a writer outcome. -/
theorem handle_set_network_config_static (eff : Effects) (p : Payload) (sip : String)
    (r : Bool × String)
    (h1 : eff.jsonParse = Except.ok p) (h2 : p.method = some "static")
    (h3 : p.static_ip = some sip) (hs : sip ≠ "")
    (h6 : eff.setResult = Except.ok r) :
    handle_set_network_config eff
      = { pubs := [{ topic := topics "network_response",
                     status := if r.1 then "success" else "error",
                     message := some r.2,
                     gateway := some (derive_gateway sip p.gateway) }],
          call := some { iface := p.interface.getD "eth0", kind := "static", ip := sip,
                         netmask := p.netmask.getD "255.255.255.0",
                         gateway := derive_gateway sip p.gateway,
                         dns := p.dns.getD "8.8.8.8 8.8.4.4" } } := by
  unfold handle_set_network_config
  rw [h1]
  dsimp only
  rw [h2]
  dsimp only
  rw [if_neg (by decide : ¬("static" = "")), if_pos rfl, h3]
  dsimp only
  rw [if_neg hs, h6]

/-- C6, confirmed.  For a static request whose gateway field is absent or
strips to blank and whose static ip has four dotted parts, the handler
derives the gateway as the first three octets followed by .1, passes it to
the writer (the write proceeds, no failure), and reports it in the
response. -/
theorem c6_gateway_auto_derivation (eff : Effects) (p : Payload) (sip a b c d : String)
    (r : Bool × String)
    (h1 : eff.jsonParse = Except.ok p) (h2 : p.method = some "static")
    (h3 : p.static_ip = some sip) (h4 : pySplit "." sip = [a, b, c, d])
    (h5 : p.gateway = none ∨ ∃ g, p.gateway = some g ∧ pyStrip g = "")
    (h6 : eff.setResult = Except.ok r) :
    derive_gateway sip p.gateway = a ++ "." ++ b ++ "." ++ c ++ ".1"
    ∧ (handle_set_network_config eff).call
        = some { iface := p.interface.getD "eth0", kind := "static", ip := sip,
                 netmask := p.netmask.getD "255.255.255.0",
                 gateway := a ++ "." ++ b ++ "." ++ c ++ ".1",
                 dns := p.dns.getD "8.8.8.8 8.8.4.4" }
    ∧ (handle_set_network_config eff).pubs
        = [{ topic := topics "network_response",
             status := if r.1 then "success" else "error",
             message := some r.2,
             gateway := some (a ++ "." ++ b ++ "." ++ c ++ ".1") }] := by
  have hsne : sip ≠ "" := by
    intro he
    rw [he] at h4
    have hlen := congrArg List.length h4
    have hlen2 : (1 : Nat) = 4 := hlen
    exact absurd hlen2 (by decide)
  have hdef : default_gateway sip = a ++ "." ++ b ++ "." ++ c ++ ".1" := by
    unfold default_gateway
    rw [h4]
  have hdg : derive_gateway sip p.gateway = a ++ "." ++ b ++ "." ++ c ++ ".1" := by
    rcases h5 with h5 | ⟨g, hg, hgs⟩
    · unfold derive_gateway
      rw [h5]
      exact hdef
    · unfold derive_gateway
      rw [hg]
      dsimp only
      rw [if_pos hgs]
      exact hdef
  have hrun := handle_set_network_config_static eff p sip r h1 h2 h3 hsne h6
  refine ⟨hdg, ?_, ?_⟩
  · rw [hrun]
    dsimp only
    rw [hdg]
  · rw [hrun]
    dsimp only
    rw [hdg]

/-- Witness for c6_gateway_auto_derivation: a request for 192.168.1.50 with
no gateway derives 192.168.1.1. -/
theorem c6_gateway_auto_derivation_witness :
    derive_gateway "192.168.1.50" none = "192" ++ "." ++ "168" ++ "." ++ "1" ++ ".1" :=
  (c6_gateway_auto_derivation
      { jsonParse := Except.ok { method := some "static", static_ip := some "192.168.1.50" },
        setResult := Except.ok (true, "ok") }
      { method := some "static", static_ip := some "192.168.1.50" }
      "192.168.1.50" "192" "168" "1" "50" (true, "ok")
      rfl rfl rfl rfl (Or.inl rfl) rfl).1

/-- C4, counterexample.  When the profile modify succeeds and the down/up
reactivation fails, _set_networkmanager_static returns success with the
connect-cable message, and the network-set handler publishes status
success: the partial outcome is not a distinct status, contrary to the
claim that it differs from both success and error. -/
theorem c4_activation_failure_reported_success :
    set_networkmanager_static { activateOk := false } "eth0" "192.168.1.50" "255.255.255.0"
        "192.168.1.1" "8.8.8.8"
      = (true, "Static IP 192.168.1.50 configured for eth0. Connect ethernet cable to activate.")
    ∧ (handle_set_network_config
          { jsonParse := Except.ok { method := some "static", static_ip := some "192.168.1.50",
                                     netmask := some "255.255.255.0",
                                     gateway := some "192.168.1.1" },
            setResult := Except.ok (set_networkmanager_static { activateOk := false } "eth0"
              "192.168.1.50" "255.255.255.0" "192.168.1.1" "8.8.8.8") }).pubs
        = [{ topic := "rpi/network/response", status := "success",
             message := some
               "Static IP 192.168.1.50 configured for eth0. Connect ethernet cable to activate.",
             gateway := some "192.168.1.1" }]
    ∧ "success" ≠ "partial_error" :=
  ⟨rfl, rfl, by decide⟩

/-- C4, amended.  A network-set whose configuration step succeeds and whose
reactivation fails is reported with status success, the partial outcome
being distinguishable only through the message text ending in connect
ethernet cable to activate; no distinct partial status is used on the
network path (the only handler using partial_error is the WiFi status
handler). -/
theorem c4_activation_failure_message (env : NmEnv) (iface ip nm gw dns : String)
    (eff : Effects) (p : Payload) (sip : String)
    (hv : (validate_network_config ip nm (some gw)).1 = true)
    (hm : env.modifyOk = true) (ha : env.activateOk = false)
    (h1 : eff.jsonParse = Except.ok p) (h2 : p.method = some "static")
    (h3 : p.static_ip = some sip) (hs : sip ≠ "")
    (h6 : eff.setResult = Except.ok (set_networkmanager_static env iface ip nm gw dns)) :
    set_networkmanager_static env iface ip nm gw dns
      = (true, "Static IP " ++ ip ++ " configured for " ++ iface
          ++ ". Connect ethernet cable to activate.")
    ∧ (handle_set_network_config eff).pubs
        = [{ topic := topics "network_response", status := "success",
             message := some ("Static IP " ++ ip ++ " configured for " ++ iface
               ++ ". Connect ethernet cable to activate."),
             gateway := some (derive_gateway sip p.gateway) }] := by
  have hw : set_networkmanager_static env iface ip nm gw dns
      = (true, "Static IP " ++ ip ++ " configured for " ++ iface
          ++ ". Connect ethernet cable to activate.") := by
    simp only [set_networkmanager_static]
    rw [hv, hm, ha]
    rfl
  refine ⟨hw, ?_⟩
  have h6b : eff.setResult = Except.ok ((true : Bool),
      "Static IP " ++ ip ++ " configured for " ++ iface
        ++ ". Connect ethernet cable to activate.") := by
    rw [h6, hw]
  have hrun := handle_set_network_config_static eff p sip _ h1 h2 h3 hs h6b
  rw [hrun]
  rfl

/-- Witness for c4_activation_failure_message at the concrete request of the
counterexample. -/
theorem c4_activation_failure_message_witness :
    (handle_set_network_config
        { jsonParse := Except.ok { method := some "static", static_ip := some "192.168.1.50",
                                   netmask := some "255.255.255.0",
                                   gateway := some "192.168.1.1" },
          setResult := Except.ok (set_networkmanager_static { activateOk := false } "eth0"
            "192.168.1.50" "255.255.255.0" "192.168.1.1" "8.8.8.8") }).pubs
      = [{ topic := topics "network_response", status := "success",
           message := some ("Static IP " ++ "192.168.1.50" ++ " configured for " ++ "eth0"
             ++ ". Connect ethernet cable to activate."),
           gateway := some (derive_gateway "192.168.1.50" (some "192.168.1.1")) }] :=
  (c4_activation_failure_message { activateOk := false } "eth0" "192.168.1.50" "255.255.255.0"
      "192.168.1.1" "8.8.8.8"
      { jsonParse := Except.ok { method := some "static", static_ip := some "192.168.1.50",
                                 netmask := some "255.255.255.0",
                                 gateway := some "192.168.1.1" },
        setResult := Except.ok (set_networkmanager_static { activateOk := false } "eth0"
          "192.168.1.50" "255.255.255.0" "192.168.1.1" "8.8.8.8") }
      { method := some "static", static_ip := some "192.168.1.50",
        netmask := some "255.255.255.0", gateway := some "192.168.1.1" }
      "192.168.1.50" rfl rfl rfl rfl rfl rfl (by decide) rfl).2

/-- C10, confirmed.  A failed scan command makes scan_wifi return the empty
list, and the scan handler then publishes status success with count zero,
identical to the response for a successful scan that found nothing: at the
public interface a failed scan is indistinguishable from an empty one. -/
theorem c10_scan_failure_indistinguishable (cur : Option String) (saved lines : List String) :
    scan_wifi cur saved false lines = []
    ∧ handle_wifi_scan { scanResult := Except.ok (scan_wifi cur saved false lines) }
        = [{ topic := topics "wifi_scan_response", status := "success", count := some 0 }]
    ∧ handle_wifi_scan { scanResult := Except.ok (scan_wifi cur saved false lines) }
        = handle_wifi_scan { scanResult := Except.ok (scan_wifi cur saved true []) } :=
  ⟨rfl, rfl, rfl⟩

